import Mathlib

/-!
Verification of the AV/C transaction and command-protocol layer of
snd-firewire-ctl-services (`src/libs/bebob/protocols/src/lib.rs`):
the `BebobAvc` transaction orchestrator with its vendor status-code quirk,
and the capability traits for media-clock frequency, sampling-clock source,
audio-feature level/balance/mute and function-block selector control.

The embedding is shallow: each Rust function of the file is translated into
a Lean function over explicit data types.  External collaborators (the
`ta1394` codec crates, the `hinawa` transport, the `bridgeco` module that is
not part of the analysed sources) appear as oracle parameters or as
structures recording exactly the data the analysed code passes to them.
Machine integers (`u8`, `u32`, `usize`) are represented by `Nat` and `i16`
by `Int`; none of the analysed operations can overflow their Rust types, as
they only move values between tables and wire structures.
-/

/-- The subset of `glib::FileError` values used by the analysed code:
`FileError::Inval` and `FileError::Io`. -/
inductive FileError
  | inval
  | io
deriving DecidableEq, Repr

/-- A `glib::Error`: an error kind together with the formatted message the
analysed code attaches to it. -/
structure GlibError where
  kind : FileError
  msg : String
deriving DecidableEq, Repr

/-- An AV/C subunit address (`ta1394_avc_general::AvcAddrSubunit`):
subunit type (only the audio subunit is used here) and subunit id. -/
inductive AvcSubunitType
  | audio
  | music
  | other (n : Nat)
deriving DecidableEq, Repr

structure AvcAddrSubunit where
  subunitType : AvcSubunitType
  subunitId : Nat
deriving DecidableEq, Repr

/-- The addressing target of an AV/C command (`ta1394_avc_general::AvcAddr`):
the unit itself or a subunit. -/
inductive AvcAddr
  | unit
  | subunit (s : AvcAddrSubunit)
deriving DecidableEq, Repr

/-- `AUDIO_SUBUNIT_0_ADDR`: audio subunit 0, the target of every audio
function-block operation in the analysed file. -/
def AUDIO_SUBUNIT_0_ADDR : AvcAddr := .subunit ⟨.audio, 0⟩

/-- The AV/C command type byte written into a command frame. -/
inductive AvcCmdType
  | control
  | status
  | specificInquiry
deriving DecidableEq, Repr

/-- AV/C response codes (`ta1394_avc_general::AvcRespCode`), including the
catch-all `Reserved` carrying the raw code byte. -/
inductive AvcRespCode
  | notImplemented
  | accepted
  | rejected
  | inTransition
  | implementedStable
  | changed
  | interim
  | reserved (code : Nat)
deriving DecidableEq, Repr

/-- Errors of command-operand construction (`AvcCmdBuildError` of the
`ta1394-avc-general` crate); the analysed code only propagates these,
so the exact variants are irrelevant and one representative is kept. -/
inductive AvcCmdBuildError
  | invalidOperands
deriving DecidableEq, Repr

/-- Errors of response parsing (`AvcRespParseError` of the
`ta1394-avc-general` crate).  `unexpectedStatus` is the variant produced by
the analysed acceptance policy. -/
inductive AvcRespParseError
  | unexpectedStatus
  | unexpectedOperands (offset : Nat)
  | tooShortResp (len : Nat)
deriving DecidableEq, Repr

/-- The error taxonomy of a full AV/C transaction
(`Ta1394AvcError<E>`): command-build failure, communication failure with an
opaque transport cause, or response-parse failure. -/
inductive Ta1394AvcError (ε : Type)
  | cmdBuild (err : AvcCmdBuildError)
  | communicationFailure (cause : ε)
  | respParse (err : AvcRespParseError)
deriving DecidableEq, Repr

/-- Opcode of `InputPlugSignalFormat` (AV/C general specification). -/
def InputPlugSignalFormatOpcode : Nat := 0x19

/-- Opcode of `OutputPlugSignalFormat` (AV/C general specification). -/
def OutputPlugSignalFormatOpcode : Nat := 0x18

/-- Opcode of `SignalSource` (AV/C connection-management specification). -/
def SignalSourceOpcode : Nat := 0x1a

/-- The interface of one AV/C operation type `O : AvcOp + AvcControl`
(or `AvcStatus`): its opcode, its operand serializer
(`build_operands`) and its response-operand deserializer
(`parse_operands`, returning the updated operation in place of Rust's
mutation through `&mut self`). -/
structure AvcOpSem (α : Type) where
  opcode : Nat
  buildOperands : α → AvcAddr → Except AvcCmdBuildError (List Nat)
  parseOperands : α → AvcAddr → List Nat → Except AvcRespParseError α

/-- The external collaborators of a `Ta1394Avc` implementation: the raw
transport round trip (`transaction`, `BebobAvc` implements it over
`FwFcp::avc_transaction`) and the frame codec provided by the
`ta1394-avc-general` crate (`compose_command_frame`,
`detect_response_operands`). -/
structure Ta1394Env (ε : Type) where
  transaction : List Nat → Except ε (List Nat)
  composeCommandFrame : AvcCmdType → AvcAddr → Nat → List Nat → List Nat
  detectResponseOperands :
    List Nat → AvcAddr → Nat → Except AvcRespParseError (AvcRespCode × List Nat)

/-- `Ta1394Avc::control` as overridden by `BebobAvc`
(`src/libs/bebob/protocols/src/lib.rs:59-94`): build operands, compose and
send the control frame, detect response code and operands, then apply the
BeBoB acceptance policy — `Accepted` is accepted always, and `Reserved(0x00)`
is additionally accepted for the three quirky opcodes; on acceptance the
operand parser of the operation runs, otherwise the result is
`RespParse UnexpectedStatus`. -/
def bebobAvcControl {ε α : Type} (env : Ta1394Env ε) (sem : AvcOpSem α)
    (addr : AvcAddr) (op : α) : Except (Ta1394AvcError ε) α :=
  match sem.buildOperands op addr with
  | .error err => .error (.cmdBuild err)
  | .ok operands =>
    let command_frame := env.composeCommandFrame .control addr sem.opcode operands
    match env.transaction command_frame with
    | .error cause => .error (.communicationFailure cause)
    | .ok response_frame =>
      match env.detectResponseOperands response_frame addr sem.opcode with
      | .error err => .error (.respParse err)
      | .ok (rcode, operands) =>
        let expected : Bool :=
          if sem.opcode = InputPlugSignalFormatOpcode ∨
              sem.opcode = OutputPlugSignalFormatOpcode ∨
              sem.opcode = SignalSourceOpcode then
            decide (rcode = AvcRespCode.accepted ∨ rcode = AvcRespCode.reserved 0x00)
          else
            decide (rcode = AvcRespCode.accepted)
        if !expected then
          .error (.respParse .unexpectedStatus)
        else
          match sem.parseOperands op addr operands with
          | .error err => .error (.respParse err)
          | .ok op => .ok op

/-- Modelled from the spec: the default `status` implementation of the
`Ta1394Avc` trait lives in the external `ta1394-avc-general` crate, whose
source is not among the analysed files.  Per the spec's generic AV/C
contract it accepts a status response iff its code is `ImplementedStable`,
with no `Reserved(0x00)` exception, and otherwise mirrors `control`:
build, send, detect, then parse on acceptance. -/
def ta1394AvcDefaultStatus {ε α : Type} (env : Ta1394Env ε) (sem : AvcOpSem α)
    (addr : AvcAddr) (op : α) : Except (Ta1394AvcError ε) α :=
  match sem.buildOperands op addr with
  | .error err => .error (.cmdBuild err)
  | .ok operands =>
    let command_frame := env.composeCommandFrame .status addr sem.opcode operands
    match env.transaction command_frame with
    | .error cause => .error (.communicationFailure cause)
    | .ok response_frame =>
      match env.detectResponseOperands response_frame addr sem.opcode with
      | .error err => .error (.respParse err)
      | .ok (rcode, operands) =>
        if !decide (rcode = AvcRespCode.implementedStable) then
          .error (.respParse .unexpectedStatus)
        else
          match sem.parseOperands op addr operands with
          | .error err => .error (.respParse err)
          | .ok op => .ok op

/-- `BebobAvc` overrides only `control` in its `Ta1394Avc` impl
(`src/libs/bebob/protocols/src/lib.rs:48-95`); `status` is inherited, so
`BebobAvc`'s status entry point is the default implementation. -/
def bebobAvcStatus {ε α : Type} (env : Ta1394Env ε) (sem : AvcOpSem α)
    (addr : AvcAddr) (op : α) : Except (Ta1394AvcError ε) α :=
  ta1394AvcDefaultStatus env sem addr op

/-- Rendering of build errors into messages, standing for the `Display`
impl of the external error type (only its existence matters here). -/
def AvcCmdBuildError.toMessage : AvcCmdBuildError → String
  | .invalidOperands => "invalid operands"

/-- Rendering of parse errors into messages, standing for the `Display`
impl of the external error type (only its existence matters here). -/
def AvcRespParseError.toMessage : AvcRespParseError → String
  | .unexpectedStatus => "unexpected status"
  | .unexpectedOperands o => "unexpected operands at " ++ toString o
  | .tooShortResp l => "response frame too short " ++ toString l

/-- `from_avc_err` (`src/libs/bebob/protocols/src/lib.rs:121-127`): maps the
transaction error taxonomy onto `glib::Error` — build failures to `Inval`,
communication failures pass the cause through, parse failures to `Io`. -/
def from_avc_err : Ta1394AvcError GlibError → GlibError
  | .cmdBuild cause => ⟨.inval, cause.toMessage⟩
  | .communicationFailure cause => cause
  | .respParse cause => ⟨.io, cause.toMessage⟩

/-- A signal address at unit level (`ta1394_avc_ccm::SignalUnitAddr`):
isochronous or external plug, with plug id. -/
inductive SignalUnitAddr
  | isoc (plugId : Nat)
  | ext (plugId : Nat)
deriving DecidableEq, Repr

/-- A signal address at subunit level (`ta1394_avc_ccm::SignalSubunitAddr`). -/
structure SignalSubunitAddr where
  subunit : AvcAddrSubunit
  plugId : Nat
deriving DecidableEq, Repr

/-- A source or destination of the signal-source command
(`ta1394_avc_ccm::SignalAddr`). -/
inductive SignalAddr
  | unit (a : SignalUnitAddr)
  | subunit (a : SignalSubunitAddr)
deriving DecidableEq, Repr

/-- Audio channel addressing of a feature function block
(`ta1394_avc_audio::AudioCh`): the all-channel master or one channel. -/
inductive AudioCh
  | all
  | each (ch : Nat)
deriving DecidableEq, Repr

/-- Control attribute of an audio function-block command
(`ta1394_avc_audio::CtlAttr`); the analysed code only uses `Current`. -/
inductive CtlAttr
  | resolution
  | minimum
  | maximum
  | current
deriving DecidableEq, Repr

/-- The control-value variants of an audio feature function block used by the
analysed code (`ta1394_avc_audio::FeatureCtl`): per-channel mute, per-channel
volume (i16), LR balance (i16).  `otherVariant` stands for the remaining
variants of the external enum, which the analysed code never constructs but
must be prepared to receive. -/
inductive FeatureCtl
  | mute (data : List Bool)
  | volume (data : List Int)
  | lrBalance (balance : Int)
  | otherVariant
deriving DecidableEq, Repr

/-- `FeatureCtl::NEG_INFINITY`, the i16 encoding of minus infinity in the
AV/C audio volume scale. -/
def FeatureCtl.NEG_INFINITY : Int := -0x8000

/-- `FeatureCtl::INFINITY`, the i16 encoding of plus infinity in the AV/C
audio balance scale. -/
def FeatureCtl.INFINITY : Int := 0x7fff

/-- `AvcLevelOperation::LEVEL_MIN` (`lib.rs:224`). -/
def LEVEL_MIN : Int := FeatureCtl.NEG_INFINITY

/-- `AvcLevelOperation::LEVEL_MAX` (`lib.rs:225`). -/
def LEVEL_MAX : Int := 0

/-- `AvcLevelOperation::LEVEL_STEP` (`lib.rs:226`). -/
def LEVEL_STEP : Int := 0x100

/-- `AvcLrBalanceOperation::BALANCE_MIN` (`lib.rs:267`). -/
def BALANCE_MIN : Int := FeatureCtl.NEG_INFINITY

/-- `AvcLrBalanceOperation::BALANCE_MAX` (`lib.rs:268`). -/
def BALANCE_MAX : Int := FeatureCtl.INFINITY

/-- `AvcLrBalanceOperation::BALANCE_STEP` (`lib.rs:269`). -/
def BALANCE_STEP : Int := 0x80

/-- The AMDTP event type passed to `AmdtpFdf::new`; the analysed code only
uses `Am824`. -/
inductive AmdtpEventType
  | am824
deriving DecidableEq, Repr

/-- Modelled from the spec: `AmdtpFdf` of the external
`ta1394_avc_audio::amdtp` module.  The spec calls it an "AM824/non-blocking
format descriptor for the resolved frequency"; the structure records the
three arguments of `AmdtpFdf::new(event_type, blocking, freq)` exactly as
the analysed code passes them. -/
structure AmdtpFdf where
  eventType : AmdtpEventType
  blocking : Bool
  freq : Nat
deriving DecidableEq, Repr

/-- `FMT_IS_AMDTP`, the AV/C stream-format byte for AMDTP, from the external
`ta1394-avc-audio` crate. -/
def FMT_IS_AMDTP : Nat := 0x10

/-- `PlugSignalFormat` (`ta1394-avc-general`): the operand structure shared
by `InputPlugSignalFormat` and `OutputPlugSignalFormat`, recording plug id,
format byte and the format-dependent field descriptor. -/
structure PlugSignalFormat where
  plug_id : Nat
  fmt : Nat
  fdf : AmdtpFdf
deriving DecidableEq, Repr

/-- Modelled from the spec: plug direction of a BridgeCo plug address
(`bridgeco::BcoPlugDirection`; `bridgeco.rs` is not among the analysed
files). -/
inductive BcoPlugDirection
  | input
  | output
deriving DecidableEq, Repr

/-- Modelled from the spec: unit plug type of a BridgeCo plug address
(`bridgeco::BcoPlugAddrUnitType`). -/
inductive BcoPlugAddrUnitType
  | isoc
  | ext
  | async
deriving DecidableEq, Repr

/-- Modelled from the spec: a BridgeCo unit plug address as produced by
`BcoPlugAddr::new_for_unit(direction, unit_type, plug_id)`, the only
constructor the analysed code uses. -/
structure BcoPlugAddr where
  direction : BcoPlugDirection
  unitType : BcoPlugAddrUnitType
  plugId : Nat
deriving DecidableEq, Repr

/-- `BcoPlugAddr::new_for_unit`. -/
def BcoPlugAddr.new_for_unit (direction : BcoPlugDirection)
    (unitType : BcoPlugAddrUnitType) (plugId : Nat) : BcoPlugAddr :=
  ⟨direction, unitType, plugId⟩

/-- Modelled from the spec: the compound AM824 stream format
(`bridgeco::BcoCompoundAm824Stream`).  Only the sampling-frequency field is
referenced by the analysed code; the channel layout it also carries is never
read here and is omitted. -/
structure BcoCompoundAm824Stream where
  freq : Nat
deriving DecidableEq, Repr

/-- Modelled from the spec: the stream format reported in an
`ExtendedStreamFormatSingle` response (`bridgeco::StreamFormat`): either a
compound AM824 stream or some other format family. -/
inductive StreamFormat
  | compoundAm824 (s : BcoCompoundAm824Stream)
  | otherFormat
deriving DecidableEq, Repr

/-- Modelled from the spec: `StreamFormat::as_bco_compound_am824_stream`
succeeds exactly on compound AM824 formats; on any other format the
analysed code receives an error (variant and message belong to
`bridgeco.rs`, which is not among the analysed files). -/
def StreamFormat.as_bco_compound_am824_stream :
    StreamFormat → Except GlibError BcoCompoundAm824Stream
  | .compoundAm824 s => .ok s
  | .otherFormat => .error ⟨.io, "stream format is not compound AM824"⟩

/-- `AudioFeature` (`ta1394-avc-audio`): the operand structure of an audio
feature function-block command, as constructed by
`AudioFeature::new(func_block_id, ctl_attr, audio_ch, ctl)`. -/
structure AudioFeature where
  func_block_id : Nat
  ctl_attr : CtlAttr
  audio_ch : AudioCh
  ctl : FeatureCtl
deriving DecidableEq, Repr

/-- `AudioSelector` (`ta1394-avc-audio`): the operand structure of an audio
selector function-block command, as constructed by
`AudioSelector::new(func_block_id, ctl_attr, input_plug_id)`. -/
structure AudioSelector where
  func_block_id : Nat
  ctl_attr : CtlAttr
  input_plug_id : Nat
deriving DecidableEq, Repr

/-- The typed AV/C operations issued by the capability traits, recording
exactly the operand structure the analysed code builds for each call. -/
inductive AvcCmd
  | inputPlugSignalFormat (f : PlugSignalFormat)
  | outputPlugSignalFormat (f : PlugSignalFormat)
  | signalSourceStatus (dst : SignalAddr)
  | signalSourceControl (dst : SignalAddr) (src : SignalAddr)
  | audioFeature (f : AudioFeature)
  | audioSelector (s : AudioSelector)
  | extendedStreamFormatSingleStatus (plugAddr : BcoPlugAddr)
deriving DecidableEq, Repr

/-- One bus transaction issued through `BebobAvc`: a `control` or `status`
call with its addressing target and typed operand structure. -/
inductive BusCall
  | control (addr : AvcAddr) (cmd : AvcCmd)
  | status (addr : AvcAddr) (cmd : AvcCmd)
deriving DecidableEq, Repr

/-- Result of a capability-trait operation.  `ok`/`err` mirror Rust's
`Result`; the two panic outcomes record the distinct ways the analysed code
can abort: out-of-bounds vector indexing (`data[0]` on an empty vector) and
the explicit `unreachable!()` branch. -/
inductive Outcome (α : Type)
  | ok (a : α)
  | err (e : GlibError)
  | panicIndex
  | panicUnreachable
deriving DecidableEq, Repr

/-- The device as seen through `BebobAvc`'s public `control`/`status`
wrappers (`lib.rs:102-118`), which the capability traits call.  `control`
returns unit or a `glib::Error`; each status oracle returns the field of the
operand structure that a successful `status` call fills in (Rust mutates the
operation in place; the analysed code reads exactly one field back per
operation type). -/
structure BebobAvcDev where
  control : AvcAddr → AvcCmd → Except GlibError Unit
  statusStreamFormat : AvcAddr → BcoPlugAddr → Except GlibError StreamFormat
  statusSignalSource : AvcAddr → SignalAddr → Except GlibError SignalAddr
  statusAudioFeature : AvcAddr → AudioFeature → Except GlibError FeatureCtl
  statusAudioSelector : AvcAddr → AudioSelector → Except GlibError Nat

/-- `Iterator::position`: index of the first element satisfying `p`. -/
def listPosition {α : Type} (p : α → Bool) : List α → Option Nat
  | [] => none
  | a :: l => if p a then some 0 else (listPosition p l).map (· + 1)

/-- The common tail of every write operation: one `avc.control(addr, op, _)`
call, logged as a bus transaction whether it succeeds or fails (the error is
the device's answer to a sent frame). -/
def avcControlCall (dev : BebobAvcDev) (addr : AvcAddr) (cmd : AvcCmd) :
    Outcome Unit × List BusCall :=
  match dev.control addr cmd with
  | .ok _ => (.ok (), [.control addr cmd])
  | .error e => (.err e, [.control addr cmd])

/-- `MediaClockFrequencyOperation::read_clk_freq` (`lib.rs:133-151`): status
query of the stream format of the unit's isochronous output plug 0, then the
position of the reported compound-stream frequency in `FREQ_LIST`.  The
second component is the trace of bus transactions issued. -/
def read_clk_freq (dev : BebobAvcDev) (FREQ_LIST : List Nat) :
    Outcome Nat × List BusCall :=
  let plug_addr := BcoPlugAddr.new_for_unit .output .isoc 0
  let call := BusCall.status .unit (.extendedStreamFormatSingleStatus plug_addr)
  match dev.statusStreamFormat .unit plug_addr with
  | .error e => (.err e, [call])
  | .ok stream_format =>
    match stream_format.as_bco_compound_am824_stream with
    | .error e => (.err e, [call])
    | .ok format =>
      match listPosition (fun r => decide (r = format.freq)) FREQ_LIST with
      | some idx => (.ok idx, [call])
      | none =>
        (.err ⟨.io, "Unexpected entry for source of clock: " ++ toString format.freq⟩,
          [call])

/-- `MediaClockFrequencyOperation::write_clk_freq` (`lib.rs:155-178`):
bounds-check `idx` against `FREQ_LIST`, build the AM824 non-blocking
frequency descriptor, then issue `InputPlugSignalFormat` for plug 0 followed
— only if the first call succeeded — by `OutputPlugSignalFormat` for
plug 0. -/
def write_clk_freq (dev : BebobAvcDev) (FREQ_LIST : List Nat) (idx : Nat) :
    Outcome Unit × List BusCall :=
  match FREQ_LIST.get? idx with
  | none =>
    (.err ⟨.inval, "Invalid argument for index of frequency: " ++ toString idx⟩, [])
  | some freq =>
    let fdf : AmdtpFdf := ⟨.am824, false, freq⟩
    let op_in : PlugSignalFormat := ⟨0, FMT_IS_AMDTP, fdf⟩
    let call_in := BusCall.control .unit (.inputPlugSignalFormat op_in)
    match dev.control .unit (.inputPlugSignalFormat op_in) with
    | .error e => (.err e, [call_in])
    | .ok _ =>
      let op_out : PlugSignalFormat := ⟨0, FMT_IS_AMDTP, fdf⟩
      let call_out := BusCall.control .unit (.outputPlugSignalFormat op_out)
      match dev.control .unit (.outputPlugSignalFormat op_out) with
      | .error e => (.err e, [call_in, call_out])
      | .ok _ => (.ok (), [call_in, call_out])

/-- `SamplingClockSourceOperation::read_clk_src` (`lib.rs:191-203`): status
query of `DST`'s current source, then the position of the reported source in
`SRC_LIST`. -/
def read_clk_src (dev : BebobAvcDev) (DST : SignalAddr)
    (SRC_LIST : List SignalAddr) : Outcome Nat × List BusCall :=
  let call := BusCall.status .unit (.signalSourceStatus DST)
  match dev.statusSignalSource .unit DST with
  | .error e => (.err e, [call])
  | .ok src =>
    match listPosition (fun s => decide (s = src)) SRC_LIST with
    | some idx => (.ok idx, [call])
    | none => (.err ⟨.io, "Unexpected entry for source of clock"⟩, [call])

/-- `SamplingClockSourceOperation::write_clk_src` (`lib.rs:207-217`):
bounds-check `idx` against `SRC_LIST`, then one control command setting
`DST`'s source. -/
def write_clk_src (dev : BebobAvcDev) (DST : SignalAddr)
    (SRC_LIST : List SignalAddr) (idx : Nat) : Outcome Unit × List BusCall :=
  match SRC_LIST.get? idx with
  | none => (.err ⟨.inval, "Invalid value for source of clock"⟩, [])
  | some src => avcControlCall dev .unit (.signalSourceControl DST src)

/-- `AvcLevelOperation::read_level` (`lib.rs:228-247`): bounds-check `idx`
against `ENTRIES`, status query with a `Volume(vec![-1])` placeholder, then
`data[0]` of the returned `Volume` vector; any other returned variant hits
`unreachable!()`. -/
def read_level (dev : BebobAvcDev) (ENTRIES : List (Nat × AudioCh))
    (idx : Nat) : Outcome Int × List BusCall :=
  match ENTRIES.get? idx with
  | none =>
    (.err ⟨.inval, "Invalid index of function block list: " ++ toString idx⟩, [])
  | some (func_block_id, audio_ch) =>
    let op : AudioFeature := ⟨func_block_id, .current, audio_ch, .volume [-1]⟩
    let call := BusCall.status AUDIO_SUBUNIT_0_ADDR (.audioFeature op)
    match dev.statusAudioFeature AUDIO_SUBUNIT_0_ADDR op with
    | .error e => (.err e, [call])
    | .ok ctl =>
      match ctl with
      | .volume [] => (.panicIndex, [call])
      | .volume (d :: _) => (.ok d, [call])
      | _ => (.panicUnreachable, [call])

/-- `AvcLevelOperation::write_level` (`lib.rs:249-262`): bounds-check `idx`
against `ENTRIES`, then one control command carrying `Volume(vec![vol])`. -/
def write_level (dev : BebobAvcDev) (ENTRIES : List (Nat × AudioCh))
    (idx : Nat) (vol : Int) : Outcome Unit × List BusCall :=
  match ENTRIES.get? idx with
  | none =>
    (.err ⟨.inval, "Invalid index of function block list: " ++ toString idx⟩, [])
  | some (func_block_id, audio_ch) =>
    avcControlCall dev AUDIO_SUBUNIT_0_ADDR
      (.audioFeature ⟨func_block_id, .current, audio_ch, .volume [vol]⟩)

/-- `AvcLrBalanceOperation::read_lr_balance` (`lib.rs:271-290`): bounds-check
`idx`, status query with an `LrBalance(-1)` placeholder, then the returned
balance; any other returned variant hits `unreachable!()`. -/
def read_lr_balance (dev : BebobAvcDev) (ENTRIES : List (Nat × AudioCh))
    (idx : Nat) : Outcome Int × List BusCall :=
  match ENTRIES.get? idx with
  | none =>
    (.err ⟨.inval, "Invalid index of function block list: " ++ toString idx⟩, [])
  | some (func_block_id, audio_ch) =>
    let op : AudioFeature := ⟨func_block_id, .current, audio_ch, .lrBalance (-1)⟩
    let call := BusCall.status AUDIO_SUBUNIT_0_ADDR (.audioFeature op)
    match dev.statusAudioFeature AUDIO_SUBUNIT_0_ADDR op with
    | .error e => (.err e, [call])
    | .ok ctl =>
      match ctl with
      | .lrBalance balance => (.ok balance, [call])
      | _ => (.panicUnreachable, [call])

/-- `AvcLrBalanceOperation::write_lr_balance` (`lib.rs:292-310`):
bounds-check `idx`, then one control command carrying
`LrBalance(balance)`. -/
def write_lr_balance (dev : BebobAvcDev) (ENTRIES : List (Nat × AudioCh))
    (idx : Nat) (balance : Int) : Outcome Unit × List BusCall :=
  match ENTRIES.get? idx with
  | none =>
    (.err ⟨.inval, "Invalid index of function block list: " ++ toString idx⟩, [])
  | some (func_block_id, audio_ch) =>
    avcControlCall dev AUDIO_SUBUNIT_0_ADDR
      (.audioFeature ⟨func_block_id, .current, audio_ch, .lrBalance balance⟩)

/-- `AvcMuteOperation::read_mute` (`lib.rs:315-334`): bounds-check `idx`,
status query with a `Mute(vec![false])` placeholder, then `data[0]` of the
returned `Mute` vector; any other returned variant hits `unreachable!()`. -/
def read_mute (dev : BebobAvcDev) (ENTRIES : List (Nat × AudioCh))
    (idx : Nat) : Outcome Bool × List BusCall :=
  match ENTRIES.get? idx with
  | none =>
    (.err ⟨.inval, "Invalid index of function block list: " ++ toString idx⟩, [])
  | some (func_block_id, audio_ch) =>
    let op : AudioFeature := ⟨func_block_id, .current, audio_ch, .mute [false]⟩
    let call := BusCall.status AUDIO_SUBUNIT_0_ADDR (.audioFeature op)
    match dev.statusAudioFeature AUDIO_SUBUNIT_0_ADDR op with
    | .error e => (.err e, [call])
    | .ok ctl =>
      match ctl with
      | .mute [] => (.panicIndex, [call])
      | .mute (d :: _) => (.ok d, [call])
      | _ => (.panicUnreachable, [call])

/-- `AvcMuteOperation::write_mute` (`lib.rs:336-349`): bounds-check `idx`,
then one control command carrying `Mute(vec![mute])`. -/
def write_mute (dev : BebobAvcDev) (ENTRIES : List (Nat × AudioCh))
    (idx : Nat) (mute : Bool) : Outcome Unit × List BusCall :=
  match ENTRIES.get? idx with
  | none =>
    (.err ⟨.inval, "Invalid index of function block list: " ++ toString idx⟩, [])
  | some (func_block_id, audio_ch) =>
    avcControlCall dev AUDIO_SUBUNIT_0_ADDR
      (.audioFeature ⟨func_block_id, .current, audio_ch, .mute [mute]⟩)

/-- `AvcSelectorOperation::read_selector` (`lib.rs:357-376`): bounds-check
`idx` against `FUNC_BLOCK_ID_LIST`, status query of that function block with
the `0xff` query-marker plug id, then the position of the reported plug id
in `INPUT_PLUG_ID_LIST`. -/
def read_selector (dev : BebobAvcDev) (FUNC_BLOCK_ID_LIST : List Nat)
    (INPUT_PLUG_ID_LIST : List Nat) (idx : Nat) : Outcome Nat × List BusCall :=
  match FUNC_BLOCK_ID_LIST.get? idx with
  | none => (.err ⟨.inval, "Invalid index of selector: " ++ toString idx⟩, [])
  | some func_block_id =>
    let op : AudioSelector := ⟨func_block_id, .current, 0xff⟩
    let call := BusCall.status AUDIO_SUBUNIT_0_ADDR (.audioSelector op)
    match dev.statusAudioSelector AUDIO_SUBUNIT_0_ADDR op with
    | .error e => (.err e, [call])
    | .ok input_plug_id =>
      match listPosition (fun p => decide (p = input_plug_id)) INPUT_PLUG_ID_LIST with
      | some pos => (.ok pos, [call])
      | none =>
        (.err ⟨.io, "Unexpected index of input plug number: " ++ toString input_plug_id⟩,
          [call])

/-- `AvcSelectorOperation::write_selector` (`lib.rs:378-400`): bounds-check
`idx` against `FUNC_BLOCK_ID_LIST` and `val` against `INPUT_PLUG_ID_LIST`
(each with its own invalid-argument error), then one control command
selecting the resolved plug id. -/
def write_selector (dev : BebobAvcDev) (FUNC_BLOCK_ID_LIST : List Nat)
    (INPUT_PLUG_ID_LIST : List Nat) (idx : Nat) (val : Nat) :
    Outcome Unit × List BusCall :=
  match FUNC_BLOCK_ID_LIST.get? idx with
  | none => (.err ⟨.inval, "Invalid index of selector: " ++ toString idx⟩, [])
  | some func_block_id =>
    match INPUT_PLUG_ID_LIST.get? val with
    | none =>
      (.err ⟨.inval, "Invalid index of input plug number: " ++ toString val⟩, [])
    | some input_plug_id =>
      avcControlCall dev AUDIO_SUBUNIT_0_ADDR
        (.audioSelector ⟨func_block_id, .current, input_plug_id⟩)

theorem listPosition_lt_length {α : Type} {p : α → Bool} {l : List α} {i : Nat}
    (h : listPosition p l = some i) : i < l.length := by
  induction l generalizing i with
  | nil => simp [listPosition] at h
  | cons a t ih =>
    simp only [listPosition] at h
    split at h
    · cases h
      simp
    · obtain ⟨j, hj, hji⟩ := Option.map_eq_some'.mp h
      have := ih hj
      simp only [List.length_cons]
      omega

theorem listPosition_eq_none_of_not_mem {α : Type} [DecidableEq α] {x : α}
    {l : List α} (h : x ∉ l) :
    listPosition (fun r => decide (r = x)) l = none := by
  induction l with
  | nil => rfl
  | cons a t ih =>
    simp only [List.mem_cons, not_or] at h
    have ha : ¬(a = x) := fun hh => h.1 hh.symm
    simp [listPosition, ha, ih h.2]

/-- A device answering every request: controls succeed, the output plug
reports a 44100 Hz compound AM824 stream, the clock source is isoc plug 1,
feature queries echo the requested control variant, selectors report input
plug 2. -/
def devEcho : BebobAvcDev where
  control := fun _ _ => .ok ()
  statusStreamFormat := fun _ _ => .ok (.compoundAm824 ⟨44100⟩)
  statusSignalSource := fun _ _ => .ok (.unit (.isoc 1))
  statusAudioFeature := fun _ op => .ok op.ctl
  statusAudioSelector := fun _ _ => .ok 2

/-- A device whose feature responses carry empty vectors and whose selector
reports the unset marker. -/
def devEmptyFeature : BebobAvcDev where
  control := fun _ _ => .ok ()
  statusStreamFormat := fun _ _ => .ok .otherFormat
  statusSignalSource := fun _ _ => .ok (.unit (.isoc 0))
  statusAudioFeature := fun _ op =>
    match op.ctl with
    | .volume _ => .ok (.volume [])
    | .mute _ => .ok (.mute [])
    | c => .ok c
  statusAudioSelector := fun _ _ => .ok 0xff

/-- An operation semantics for witnesses: opcode of `InputPlugSignalFormat`,
empty operands, parsing leaves the operation unchanged. -/
def unitOpSem : AvcOpSem Unit where
  opcode := InputPlugSignalFormatOpcode
  buildOperands := fun _ _ => .ok []
  parseOperands := fun op _ _ => .ok op

/-- An operation semantics for witnesses with an ordinary opcode (vendor
dependent, 0x00) outside the three quirky ones. -/
def plainOpSem : AvcOpSem Unit where
  opcode := 0x00
  buildOperands := fun _ _ => .ok []
  parseOperands := fun op _ _ => .ok op

/-- An environment for witnesses whose device answers `Accepted`. -/
def envAcceptedResp : Ta1394Env Unit where
  transaction := fun _ => .ok []
  composeCommandFrame := fun _ _ _ _ => []
  detectResponseOperands := fun _ _ _ => .ok (.accepted, [])

/-- An environment for witnesses whose device answers `Reserved(0x00)`. -/
def envReservedResp : Ta1394Env Unit where
  transaction := fun _ => .ok []
  composeCommandFrame := fun _ _ _ _ => []
  detectResponseOperands := fun _ _ _ => .ok (.reserved 0x00, [])

/-- C1: for every control operation issued through `BebobAvc` whose
transport round trip and frame detection succeed, the response is accepted
iff its code is `Accepted`, except that for the opcodes
`InputPlugSignalFormat`, `OutputPlugSignalFormat` and `SignalSource` the
code `Reserved(0x00)` is also accepted; on acceptance the result is exactly
the operation's operand parsing (its errors mapped into `RespParse`), and on
any other code the result is `RespParse UnexpectedStatus` — so operand
parsing is invoked only on accepted responses. -/
theorem bebobAvcControl_acceptance_policy {ε α : Type}
    (env : Ta1394Env ε) (sem : AvcOpSem α) (addr : AvcAddr) (op : α)
    (operands response_frame resp_operands : List Nat) (rcode : AvcRespCode)
    (hbuild : sem.buildOperands op addr = .ok operands)
    (htrans : env.transaction
      (env.composeCommandFrame .control addr sem.opcode operands) = .ok response_frame)
    (hdetect : env.detectResponseOperands response_frame addr sem.opcode
      = .ok (rcode, resp_operands)) :
    (rcode = AvcRespCode.accepted ∨
        ((sem.opcode = InputPlugSignalFormatOpcode ∨
            sem.opcode = OutputPlugSignalFormatOpcode ∨
            sem.opcode = SignalSourceOpcode) ∧
          rcode = AvcRespCode.reserved 0x00) →
      bebobAvcControl env sem addr op
        = (sem.parseOperands op addr resp_operands).mapError Ta1394AvcError.respParse) ∧
    (¬(rcode = AvcRespCode.accepted ∨
        ((sem.opcode = InputPlugSignalFormatOpcode ∨
            sem.opcode = OutputPlugSignalFormatOpcode ∨
            sem.opcode = SignalSourceOpcode) ∧
          rcode = AvcRespCode.reserved 0x00)) →
      bebobAvcControl env sem addr op
        = .error (.respParse .unexpectedStatus)) := by
  simp only [bebobAvcControl, hbuild, htrans, hdetect]
  constructor
  · intro hacc
    by_cases hop : sem.opcode = InputPlugSignalFormatOpcode ∨
        sem.opcode = OutputPlugSignalFormatOpcode ∨ sem.opcode = SignalSourceOpcode
    · have hcode : rcode = AvcRespCode.accepted ∨ rcode = AvcRespCode.reserved 0x00 := by
        rcases hacc with h | ⟨_, h⟩
        · exact Or.inl h
        · exact Or.inr h
      cases hp : sem.parseOperands op addr resp_operands <;>
        simp [hop, hcode, hp, Except.mapError]
    · have hr : rcode = AvcRespCode.accepted := by
        rcases hacc with h | ⟨h1, _⟩
        · exact h
        · exact absurd h1 hop
      cases hp : sem.parseOperands op addr resp_operands <;>
        simp [hop, hr, hp, Except.mapError]
  · intro hrej
    push_neg at hrej
    by_cases hop : sem.opcode = InputPlugSignalFormatOpcode ∨
        sem.opcode = OutputPlugSignalFormatOpcode ∨ sem.opcode = SignalSourceOpcode
    · simp [hop, hrej.1, hrej.2 hop]
    · simp [hop, hrej.1]

/-- Witness for the acceptance-policy theorem: with the quirky
`InputPlugSignalFormat` opcode and a `Reserved(0x00)` response the control
call is accepted and its result is the operand parsing of the operation. -/
theorem bebobAvcControl_acceptance_policy_witness :
    bebobAvcControl envReservedResp unitOpSem AvcAddr.unit ()
      = (unitOpSem.parseOperands () AvcAddr.unit []).mapError Ta1394AvcError.respParse :=
  (bebobAvcControl_acceptance_policy envReservedResp unitOpSem AvcAddr.unit ()
      [] [] [] (AvcRespCode.reserved 0x00) rfl rfl rfl).1
    (Or.inr ⟨Or.inl rfl, rfl⟩)

/-- C9: the `Reserved(0x00)` quirk is confined to the `control` entry point:
`BebobAvc`'s status entry point is definitionally the library's default
implementation, and a status response carrying `Reserved(0x00)` is rejected
as `RespParse UnexpectedStatus` for every opcode — including the three
quirky ones. -/
theorem bebobAvcStatus_no_reserved_quirk {ε α : Type}
    (env : Ta1394Env ε) (sem : AvcOpSem α) (addr : AvcAddr) (op : α)
    (operands response_frame resp_operands : List Nat)
    (hbuild : sem.buildOperands op addr = .ok operands)
    (htrans : env.transaction
      (env.composeCommandFrame .status addr sem.opcode operands) = .ok response_frame)
    (hdetect : env.detectResponseOperands response_frame addr sem.opcode
      = .ok (AvcRespCode.reserved 0x00, resp_operands)) :
    bebobAvcStatus env sem addr op = ta1394AvcDefaultStatus env sem addr op
    ∧ bebobAvcStatus env sem addr op
      = .error (.respParse .unexpectedStatus) := by
  refine ⟨rfl, ?_⟩
  simp [bebobAvcStatus, ta1394AvcDefaultStatus, hbuild, htrans, hdetect]

/-- Witness for the status theorem: with the quirky
`InputPlugSignalFormat` opcode a status response of `Reserved(0x00)` is
still rejected. -/
theorem bebobAvcStatus_no_reserved_quirk_witness :
    bebobAvcStatus envReservedResp unitOpSem AvcAddr.unit ()
      = ta1394AvcDefaultStatus envReservedResp unitOpSem AvcAddr.unit ()
    ∧ bebobAvcStatus envReservedResp unitOpSem AvcAddr.unit ()
      = .error (.respParse .unexpectedStatus) :=
  bebobAvcStatus_no_reserved_quirk envReservedResp unitOpSem AvcAddr.unit ()
    [] [] [] rfl rfl rfl

/-- C2: for every index at or beyond the length of the implementing type's
table, each of the six write operations returns an invalid-argument error
and issues zero bus transactions (empty trace), so no device state changes
on failure. -/
theorem write_ops_out_of_bounds_no_transaction
    (dev : BebobAvcDev) (idx : Nat) (FREQ_LIST : List Nat) (DST : SignalAddr)
    (SRC_LIST : List SignalAddr) (ENTRIES : List (Nat × AudioCh))
    (FUNC_BLOCK_ID_LIST INPUT_PLUG_ID_LIST : List Nat)
    (vol balance : Int) (mute : Bool) (val : Nat)
    (hf : FREQ_LIST.length ≤ idx) (hs : SRC_LIST.length ≤ idx)
    (he : ENTRIES.length ≤ idx) (hb : FUNC_BLOCK_ID_LIST.length ≤ idx) :
    write_clk_freq dev FREQ_LIST idx
      = (.err ⟨.inval, "Invalid argument for index of frequency: " ++ toString idx⟩, [])
    ∧ write_clk_src dev DST SRC_LIST idx
      = (.err ⟨.inval, "Invalid value for source of clock"⟩, [])
    ∧ write_level dev ENTRIES idx vol
      = (.err ⟨.inval, "Invalid index of function block list: " ++ toString idx⟩, [])
    ∧ write_lr_balance dev ENTRIES idx balance
      = (.err ⟨.inval, "Invalid index of function block list: " ++ toString idx⟩, [])
    ∧ write_mute dev ENTRIES idx mute
      = (.err ⟨.inval, "Invalid index of function block list: " ++ toString idx⟩, [])
    ∧ write_selector dev FUNC_BLOCK_ID_LIST INPUT_PLUG_ID_LIST idx val
      = (.err ⟨.inval, "Invalid index of selector: " ++ toString idx⟩, []) := by
  have hf' := List.get?_eq_none.mpr hf
  have hs' := List.get?_eq_none.mpr hs
  have he' := List.get?_eq_none.mpr he
  have hb' := List.get?_eq_none.mpr hb
  rw [List.get?_eq_getElem?] at hf' hs' he' hb'
  refine ⟨?_, ?_, ?_, ?_, ?_, ?_⟩ <;>
    simp [write_clk_freq, write_clk_src, write_level, write_lr_balance,
      write_mute, write_selector, hf', hs', he', hb']

/-- Witness: index 5 against a three-entry frequency table and empty
remaining tables — every write fails with `Inval` and an empty trace. -/
theorem write_ops_out_of_bounds_no_transaction_witness :
    write_clk_freq devEcho [32000, 44100, 48000] 5
      = (.err ⟨.inval, "Invalid argument for index of frequency: " ++ toString 5⟩, [])
    ∧ write_clk_src devEcho (.unit (.isoc 0)) [] 5
      = (.err ⟨.inval, "Invalid value for source of clock"⟩, [])
    ∧ write_level devEcho [] 5 0
      = (.err ⟨.inval, "Invalid index of function block list: " ++ toString 5⟩, [])
    ∧ write_lr_balance devEcho [] 5 0
      = (.err ⟨.inval, "Invalid index of function block list: " ++ toString 5⟩, [])
    ∧ write_mute devEcho [] 5 false
      = (.err ⟨.inval, "Invalid index of function block list: " ++ toString 5⟩, [])
    ∧ write_selector devEcho [] [0, 2, 5] 5 0
      = (.err ⟨.inval, "Invalid index of selector: " ++ toString 5⟩, []) :=
  write_ops_out_of_bounds_no_transaction devEcho 5 [32000, 44100, 48000]
    (.unit (.isoc 0)) [] [] [] [0, 2, 5] 0 0 false 0
    (by decide) (by decide) (by decide) (by decide)

/-- C3: for every valid index into `FREQ_LIST`, `write_clk_freq` builds the
AM824 non-blocking descriptor for `FREQ_LIST[idx]` and issues exactly two
control commands in order — `InputPlugSignalFormat` for plug 0, then
`OutputPlugSignalFormat` for plug 0; it succeeds iff both succeed, the
second is not issued when the first fails, and when the first succeeds but
the second fails the error is returned with no third (rollback) command in
the trace. -/
theorem write_clk_freq_two_commands
    (dev : BebobAvcDev) (FREQ_LIST : List Nat) (idx freq : Nat)
    (hidx : FREQ_LIST.get? idx = some freq) :
    (dev.control .unit
        (.inputPlugSignalFormat ⟨0, FMT_IS_AMDTP, ⟨.am824, false, freq⟩⟩) = .ok ()
      → dev.control .unit
        (.outputPlugSignalFormat ⟨0, FMT_IS_AMDTP, ⟨.am824, false, freq⟩⟩) = .ok ()
      → write_clk_freq dev FREQ_LIST idx
        = (.ok (),
          [.control .unit (.inputPlugSignalFormat ⟨0, FMT_IS_AMDTP, ⟨.am824, false, freq⟩⟩),
           .control .unit (.outputPlugSignalFormat ⟨0, FMT_IS_AMDTP, ⟨.am824, false, freq⟩⟩)]))
    ∧ (∀ e, dev.control .unit
        (.inputPlugSignalFormat ⟨0, FMT_IS_AMDTP, ⟨.am824, false, freq⟩⟩) = .error e
      → write_clk_freq dev FREQ_LIST idx
        = (.err e,
          [.control .unit (.inputPlugSignalFormat ⟨0, FMT_IS_AMDTP, ⟨.am824, false, freq⟩⟩)]))
    ∧ (∀ e, dev.control .unit
        (.inputPlugSignalFormat ⟨0, FMT_IS_AMDTP, ⟨.am824, false, freq⟩⟩) = .ok ()
      → dev.control .unit
        (.outputPlugSignalFormat ⟨0, FMT_IS_AMDTP, ⟨.am824, false, freq⟩⟩) = .error e
      → write_clk_freq dev FREQ_LIST idx
        = (.err e,
          [.control .unit (.inputPlugSignalFormat ⟨0, FMT_IS_AMDTP, ⟨.am824, false, freq⟩⟩),
           .control .unit (.outputPlugSignalFormat ⟨0, FMT_IS_AMDTP, ⟨.am824, false, freq⟩⟩)])) := by
  rw [List.get?_eq_getElem?] at hidx
  refine ⟨?_, ?_, ?_⟩
  · intro h1 h2
    simp [write_clk_freq, hidx, h1, h2]
  · intro e h1
    simp [write_clk_freq, hidx, h1]
  · intro e h1 h2
    simp [write_clk_freq, hidx, h1, h2]

/-- Witness: the spec's concrete scenario — `FREQ_LIST = [32000, 44100,
48000]`, `write_clk_freq(2)` sends the 48000 descriptor to input plug 0 and
then output plug 0 and succeeds. -/
theorem write_clk_freq_two_commands_witness :
    write_clk_freq devEcho [32000, 44100, 48000] 2
      = (.ok (),
        [.control .unit (.inputPlugSignalFormat ⟨0, FMT_IS_AMDTP, ⟨.am824, false, 48000⟩⟩),
         .control .unit (.outputPlugSignalFormat ⟨0, FMT_IS_AMDTP, ⟨.am824, false, 48000⟩⟩)]) :=
  (write_clk_freq_two_commands devEcho [32000, 44100, 48000] 2 48000 rfl).1 rfl rfl

theorem read_clk_freq_no_panic (dev : BebobAvcDev) (l : List Nat) :
    (read_clk_freq dev l).1 ≠ Outcome.panicIndex
    ∧ (read_clk_freq dev l).1 ≠ Outcome.panicUnreachable := by
  cases h : dev.statusStreamFormat AvcAddr.unit (BcoPlugAddr.new_for_unit .output .isoc 0) with
  | error e => simp [read_clk_freq, h]
  | ok sf =>
    cases sf with
    | otherFormat => simp [read_clk_freq, h, StreamFormat.as_bco_compound_am824_stream]
    | compoundAm824 s =>
      cases hp : listPosition (fun r => decide (r = s.freq)) l with
      | none => simp [read_clk_freq, h, StreamFormat.as_bco_compound_am824_stream, hp]
      | some i => simp [read_clk_freq, h, StreamFormat.as_bco_compound_am824_stream, hp]

theorem read_clk_src_no_panic (dev : BebobAvcDev) (dst : SignalAddr)
    (sl : List SignalAddr) :
    (read_clk_src dev dst sl).1 ≠ Outcome.panicIndex
    ∧ (read_clk_src dev dst sl).1 ≠ Outcome.panicUnreachable := by
  cases h : dev.statusSignalSource AvcAddr.unit dst with
  | error e => simp [read_clk_src, h]
  | ok src =>
    cases hp : listPosition (fun s => decide (s = src)) sl with
    | none => simp [read_clk_src, h, hp]
    | some i => simp [read_clk_src, h, hp]

theorem read_selector_no_panic (dev : BebobAvcDev) (fbl ipl : List Nat)
    (idx : Nat) :
    (read_selector dev fbl ipl idx).1 ≠ Outcome.panicIndex
    ∧ (read_selector dev fbl ipl idx).1 ≠ Outcome.panicUnreachable := by
  cases hg : fbl[idx]? with
  | none => simp [read_selector, hg]
  | some fb =>
    cases h : dev.statusAudioSelector AUDIO_SUBUNIT_0_ADDR ⟨fb, .current, 0xff⟩ with
    | error e => simp [read_selector, hg, h]
    | ok plug =>
      cases hp : listPosition (fun p => decide (p = plug)) ipl with
      | none => simp [read_selector, hg, h, hp]
      | some i => simp [read_selector, hg, h, hp]

/-- C4: `read_clk_freq` issues one status query for the unit's isochronous
output plug 0 stream format; when the device reports a compound-stream
frequency `f` found in `FREQ_LIST` it returns its position, an index
strictly below the table length; when `f` is not in `FREQ_LIST` it returns
an `Io` error whose message carries the unexpected frequency; and it never
panics. -/
theorem read_clk_freq_reverse_lookup
    (dev : BebobAvcDev) (FREQ_LIST : List Nat) (f : Nat)
    (hdev : dev.statusStreamFormat AvcAddr.unit
      (BcoPlugAddr.new_for_unit .output .isoc 0) = .ok (.compoundAm824 ⟨f⟩)) :
    (∀ i, listPosition (fun r => decide (r = f)) FREQ_LIST = some i →
      read_clk_freq dev FREQ_LIST
        = (.ok i, [.status .unit (.extendedStreamFormatSingleStatus
            (BcoPlugAddr.new_for_unit .output .isoc 0))])
      ∧ i < FREQ_LIST.length)
    ∧ (f ∉ FREQ_LIST →
      read_clk_freq dev FREQ_LIST
        = (.err ⟨.io, "Unexpected entry for source of clock: " ++ toString f⟩,
           [.status .unit (.extendedStreamFormatSingleStatus
             (BcoPlugAddr.new_for_unit .output .isoc 0))]))
    ∧ (read_clk_freq dev FREQ_LIST).1 ≠ Outcome.panicIndex
    ∧ (read_clk_freq dev FREQ_LIST).1 ≠ Outcome.panicUnreachable := by
  refine ⟨?_, ?_, (read_clk_freq_no_panic dev FREQ_LIST).1,
    (read_clk_freq_no_panic dev FREQ_LIST).2⟩
  · intro i hp
    refine ⟨?_, listPosition_lt_length hp⟩
    simp [read_clk_freq, hdev, StreamFormat.as_bco_compound_am824_stream, hp]
  · intro hnot
    have hp := listPosition_eq_none_of_not_mem hnot
    simp [read_clk_freq, hdev, StreamFormat.as_bco_compound_am824_stream, hp]

/-- Witness: the spec's concrete scenario — `FREQ_LIST = [32000, 44100,
48000]`, the device reports 44100, `read_clk_freq` returns index 1 after a
single status query. -/
theorem read_clk_freq_reverse_lookup_witness :
    read_clk_freq devEcho [32000, 44100, 48000]
      = (.ok 1, [.status .unit (.extendedStreamFormatSingleStatus
          (BcoPlugAddr.new_for_unit .output .isoc 0))])
    ∧ (1 : Nat) < ([32000, 44100, 48000] : List Nat).length :=
  (read_clk_freq_reverse_lookup devEcho [32000, 44100, 48000] 44100 rfl).1 1 rfl

/-- C5: `write_level` serializes any value `v` — including values below
`LEVEL_MIN` or above `LEVEL_MAX` — into the `Volume` operand unchanged and
sends it; the outcome is decided solely by the device's answer, with no
local clamping or range rejection; the same holds for `write_lr_balance`
with respect to `BALANCE_MIN`/`BALANCE_MAX`. -/
theorem write_level_balance_passthrough
    (dev : BebobAvcDev) (ENTRIES : List (Nat × AudioCh)) (idx : Nat)
    (fb : Nat) (ch : AudioCh) (vol balance : Int)
    (hidx : ENTRIES.get? idx = some (fb, ch)) :
    ((dev.control AUDIO_SUBUNIT_0_ADDR
        (.audioFeature ⟨fb, .current, ch, .volume [vol]⟩) = .ok ()
      → write_level dev ENTRIES idx vol = (.ok (),
          [.control AUDIO_SUBUNIT_0_ADDR (.audioFeature ⟨fb, .current, ch, .volume [vol]⟩)]))
    ∧ (∀ e, dev.control AUDIO_SUBUNIT_0_ADDR
        (.audioFeature ⟨fb, .current, ch, .volume [vol]⟩) = .error e
      → write_level dev ENTRIES idx vol = (.err e,
          [.control AUDIO_SUBUNIT_0_ADDR (.audioFeature ⟨fb, .current, ch, .volume [vol]⟩)])))
    ∧ ((dev.control AUDIO_SUBUNIT_0_ADDR
        (.audioFeature ⟨fb, .current, ch, .lrBalance balance⟩) = .ok ()
      → write_lr_balance dev ENTRIES idx balance = (.ok (),
          [.control AUDIO_SUBUNIT_0_ADDR (.audioFeature ⟨fb, .current, ch, .lrBalance balance⟩)]))
    ∧ (∀ e, dev.control AUDIO_SUBUNIT_0_ADDR
        (.audioFeature ⟨fb, .current, ch, .lrBalance balance⟩) = .error e
      → write_lr_balance dev ENTRIES idx balance = (.err e,
          [.control AUDIO_SUBUNIT_0_ADDR (.audioFeature ⟨fb, .current, ch, .lrBalance balance⟩)]))) := by
  rw [List.get?_eq_getElem?] at hidx
  refine ⟨⟨fun h => ?_, fun e h => ?_⟩, ⟨fun h => ?_, fun e h => ?_⟩⟩ <;>
    simp [write_level, write_lr_balance, avcControlCall, hidx, h]

/-- Witness: a volume value strictly below `LEVEL_MIN` is sent to the wire
unchanged. -/
theorem write_level_balance_passthrough_witness :
    write_level devEcho [(1, AudioCh.each 0)] 0 (LEVEL_MIN - 1) = (.ok (),
      [.control AUDIO_SUBUNIT_0_ADDR
        (.audioFeature ⟨1, .current, .each 0, .volume [LEVEL_MIN - 1]⟩)]) :=
  ((write_level_balance_passthrough devEcho [(1, AudioCh.each 0)] 0 1
      (AudioCh.each 0) (LEVEL_MIN - 1) 0 rfl).1).1 rfl

/-- C7: for every valid index into `FUNC_BLOCK_ID_LIST`, `read_selector`
queries that function block with the `0xff` query-marker plug id and
returns the position in `INPUT_PLUG_ID_LIST` of the plug id the device
reports. -/
theorem read_selector_reverse_lookup
    (dev : BebobAvcDev) (FUNC_BLOCK_ID_LIST INPUT_PLUG_ID_LIST : List Nat)
    (idx fb plug i : Nat)
    (hfb : FUNC_BLOCK_ID_LIST.get? idx = some fb)
    (hdev : dev.statusAudioSelector AUDIO_SUBUNIT_0_ADDR ⟨fb, .current, 0xff⟩ = .ok plug)
    (hpos : listPosition (fun p => decide (p = plug)) INPUT_PLUG_ID_LIST = some i) :
    read_selector dev FUNC_BLOCK_ID_LIST INPUT_PLUG_ID_LIST idx
      = (.ok i, [.status AUDIO_SUBUNIT_0_ADDR (.audioSelector ⟨fb, .current, 0xff⟩)]) := by
  rw [List.get?_eq_getElem?] at hfb
  simp [read_selector, hfb, hdev, hpos]

/-- Witness: the spec's concrete scenario — `FUNC_BLOCK_ID_LIST = [0x01]`,
`INPUT_PLUG_ID_LIST = [0x00, 0x02, 0x05]`, the device reports plug id 0x02
for function block 0x01, and `read_selector(0)` returns 1. -/
theorem read_selector_reverse_lookup_witness :
    read_selector devEcho [1] [0, 2, 5] 0
      = (.ok 1, [.status AUDIO_SUBUNIT_0_ADDR (.audioSelector ⟨1, .current, 0xff⟩)]) :=
  read_selector_reverse_lookup devEcho [1] [0, 2, 5] 0 1 2 1 rfl rfl rfl

/-- C6: reverse-lookup failure is distinct from forward-lookup failure —
each read operation maps a hardware-reported value missing from its table to
an `Io`-kind error, each write operation maps an out-of-bounds caller index
to an `Inval`-kind error, the two kinds are distinct constructors, and the
three read operations never panic for any device behaviour. -/
theorem lookup_failure_kinds_distinct
    (dev : BebobAvcDev) (DST : SignalAddr) (SRC_LIST : List SignalAddr)
    (src : SignalAddr) (FREQ_LIST : List Nat) (f : Nat)
    (FUNC_BLOCK_ID_LIST INPUT_PLUG_ID_LIST : List Nat) (idx fb plug : Nat)
    (ENTRIES : List (Nat × AudioCh)) (jdx : Nat) (vol balance : Int)
    (mute : Bool) (val : Nat)
    (hsrc : dev.statusSignalSource AvcAddr.unit DST = .ok src)
    (hsrcnot : src ∉ SRC_LIST)
    (hfmt : dev.statusStreamFormat AvcAddr.unit
      (BcoPlugAddr.new_for_unit .output .isoc 0) = .ok (.compoundAm824 ⟨f⟩))
    (hfnot : f ∉ FREQ_LIST)
    (hfb : FUNC_BLOCK_ID_LIST.get? idx = some fb)
    (hplug : dev.statusAudioSelector AUDIO_SUBUNIT_0_ADDR ⟨fb, .current, 0xff⟩ = .ok plug)
    (hplugnot : plug ∉ INPUT_PLUG_ID_LIST)
    (hwf : FREQ_LIST.length ≤ jdx) (hws : SRC_LIST.length ≤ jdx)
    (hwe : ENTRIES.length ≤ jdx) (hwb : FUNC_BLOCK_ID_LIST.length ≤ jdx) :
    (read_clk_src dev DST SRC_LIST).1
      = .err ⟨.io, "Unexpected entry for source of clock"⟩
    ∧ (read_clk_freq dev FREQ_LIST).1
      = .err ⟨.io, "Unexpected entry for source of clock: " ++ toString f⟩
    ∧ (read_selector dev FUNC_BLOCK_ID_LIST INPUT_PLUG_ID_LIST idx).1
      = .err ⟨.io, "Unexpected index of input plug number: " ++ toString plug⟩
    ∧ (write_clk_freq dev FREQ_LIST jdx).1
      = .err ⟨.inval, "Invalid argument for index of frequency: " ++ toString jdx⟩
    ∧ (write_clk_src dev DST SRC_LIST jdx).1
      = .err ⟨.inval, "Invalid value for source of clock"⟩
    ∧ (write_level dev ENTRIES jdx vol).1
      = .err ⟨.inval, "Invalid index of function block list: " ++ toString jdx⟩
    ∧ (write_lr_balance dev ENTRIES jdx balance).1
      = .err ⟨.inval, "Invalid index of function block list: " ++ toString jdx⟩
    ∧ (write_mute dev ENTRIES jdx mute).1
      = .err ⟨.inval, "Invalid index of function block list: " ++ toString jdx⟩
    ∧ (write_selector dev FUNC_BLOCK_ID_LIST INPUT_PLUG_ID_LIST jdx val).1
      = .err ⟨.inval, "Invalid index of selector: " ++ toString jdx⟩
    ∧ FileError.io ≠ FileError.inval
    ∧ (∀ (d : BebobAvcDev) (ds : SignalAddr) (sl : List SignalAddr),
        (read_clk_src d ds sl).1 ≠ Outcome.panicIndex
        ∧ (read_clk_src d ds sl).1 ≠ Outcome.panicUnreachable)
    ∧ (∀ (d : BebobAvcDev) (fl : List Nat),
        (read_clk_freq d fl).1 ≠ Outcome.panicIndex
        ∧ (read_clk_freq d fl).1 ≠ Outcome.panicUnreachable)
    ∧ (∀ (d : BebobAvcDev) (fl il : List Nat) (i : Nat),
        (read_selector d fl il i).1 ≠ Outcome.panicIndex
        ∧ (read_selector d fl il i).1 ≠ Outcome.panicUnreachable) := by
  have hwf' := List.get?_eq_none.mpr hwf
  have hws' := List.get?_eq_none.mpr hws
  have hwe' := List.get?_eq_none.mpr hwe
  have hwb' := List.get?_eq_none.mpr hwb
  rw [List.get?_eq_getElem?] at hwf' hws' hwe' hwb' hfb
  refine ⟨?_, ?_, ?_, ?_, ?_, ?_, ?_, ?_, ?_, by decide,
    read_clk_src_no_panic, read_clk_freq_no_panic, read_selector_no_panic⟩
  · simp [read_clk_src, hsrc, listPosition_eq_none_of_not_mem hsrcnot]
  · simp [read_clk_freq, hfmt, StreamFormat.as_bco_compound_am824_stream,
      listPosition_eq_none_of_not_mem hfnot]
  · simp [read_selector, hfb, hplug, listPosition_eq_none_of_not_mem hplugnot]
  · simp [write_clk_freq, hwf']
  · simp [write_clk_src, hws']
  · simp [write_level, hwe']
  · simp [write_lr_balance, hwe']
  · simp [write_mute, hwe']
  · simp [write_selector, hwb']

/-- Witness for the failure-kind theorem: the echo device against empty
tables — table misses on reads yield `Io` errors, index 1 is out of bounds
for every write and yields `Inval` errors. -/
theorem lookup_failure_kinds_distinct_witness :
    (read_clk_src devEcho (.unit (.isoc 0)) []).1
      = .err ⟨.io, "Unexpected entry for source of clock"⟩
    ∧ (read_clk_freq devEcho []).1
      = .err ⟨.io, "Unexpected entry for source of clock: " ++ toString 44100⟩
    ∧ (read_selector devEcho [1] [] 0).1
      = .err ⟨.io, "Unexpected index of input plug number: " ++ toString 2⟩
    ∧ (write_clk_freq devEcho [] 1).1
      = .err ⟨.inval, "Invalid argument for index of frequency: " ++ toString 1⟩
    ∧ (write_clk_src devEcho (.unit (.isoc 0)) [] 1).1
      = .err ⟨.inval, "Invalid value for source of clock"⟩
    ∧ (write_level devEcho [] 1 0).1
      = .err ⟨.inval, "Invalid index of function block list: " ++ toString 1⟩
    ∧ (write_lr_balance devEcho [] 1 0).1
      = .err ⟨.inval, "Invalid index of function block list: " ++ toString 1⟩
    ∧ (write_mute devEcho [] 1 false).1
      = .err ⟨.inval, "Invalid index of function block list: " ++ toString 1⟩
    ∧ (write_selector devEcho [1] [] 1 0).1
      = .err ⟨.inval, "Invalid index of selector: " ++ toString 1⟩
    ∧ FileError.io ≠ FileError.inval
    ∧ (∀ (d : BebobAvcDev) (ds : SignalAddr) (sl : List SignalAddr),
        (read_clk_src d ds sl).1 ≠ Outcome.panicIndex
        ∧ (read_clk_src d ds sl).1 ≠ Outcome.panicUnreachable)
    ∧ (∀ (d : BebobAvcDev) (fl : List Nat),
        (read_clk_freq d fl).1 ≠ Outcome.panicIndex
        ∧ (read_clk_freq d fl).1 ≠ Outcome.panicUnreachable)
    ∧ (∀ (d : BebobAvcDev) (fl il : List Nat) (i : Nat),
        (read_selector d fl il i).1 ≠ Outcome.panicIndex
        ∧ (read_selector d fl il i).1 ≠ Outcome.panicUnreachable) :=
  lookup_failure_kinds_distinct devEcho (.unit (.isoc 0)) [] (.unit (.isoc 1))
    [] 44100 [1] [] 0 1 2 [] 1 0 0 false 0
    rfl (by decide) rfl (by decide) rfl rfl (by decide)
    (by decide) (by decide) (by decide) (by decide)

/-- C8: in `read_level`, `read_lr_balance` and `read_mute`, when the device
answers with the same control-value variant that was requested, the
`unreachable!()` branch is never taken and each function returns the decoded
value of that variant (the first vector element for volume and mute, the
scalar for balance). -/
theorem feature_reads_variant_consistent
    (dev : BebobAvcDev) (ENTRIES : List (Nat × AudioCh)) (idx : Nat)
    (fb : Nat) (ch : AudioCh)
    (hidx : ENTRIES.get? idx = some (fb, ch)) :
    (∀ data, dev.statusAudioFeature AUDIO_SUBUNIT_0_ADDR
        ⟨fb, .current, ch, .volume [-1]⟩ = .ok (.volume data) →
      (read_level dev ENTRIES idx).1 ≠ Outcome.panicUnreachable
      ∧ ∀ d rest, data = d :: rest →
        read_level dev ENTRIES idx = (.ok d,
          [.status AUDIO_SUBUNIT_0_ADDR (.audioFeature ⟨fb, .current, ch, .volume [-1]⟩)]))
    ∧ (∀ b, dev.statusAudioFeature AUDIO_SUBUNIT_0_ADDR
        ⟨fb, .current, ch, .lrBalance (-1)⟩ = .ok (.lrBalance b) →
      read_lr_balance dev ENTRIES idx = (.ok b,
        [.status AUDIO_SUBUNIT_0_ADDR (.audioFeature ⟨fb, .current, ch, .lrBalance (-1)⟩)]))
    ∧ (∀ data, dev.statusAudioFeature AUDIO_SUBUNIT_0_ADDR
        ⟨fb, .current, ch, .mute [false]⟩ = .ok (.mute data) →
      (read_mute dev ENTRIES idx).1 ≠ Outcome.panicUnreachable
      ∧ ∀ b rest, data = b :: rest →
        read_mute dev ENTRIES idx = (.ok b,
          [.status AUDIO_SUBUNIT_0_ADDR (.audioFeature ⟨fb, .current, ch, .mute [false]⟩)])) := by
  rw [List.get?_eq_getElem?] at hidx
  refine ⟨fun data h => ⟨?_, fun d rest hd => ?_⟩, fun b h => ?_,
    fun data h => ⟨?_, fun b rest hd => ?_⟩⟩
  · cases data <;> simp [read_level, hidx, h]
  · subst hd
    simp [read_level, hidx, h]
  · simp [read_lr_balance, hidx, h]
  · cases data <;> simp [read_mute, hidx, h]
  · subst hd
    simp [read_mute, hidx, h]

/-- Witness: the echo device answers with the requested variants; the three
reads return the echoed values and none hits `unreachable!()`. -/
theorem feature_reads_variant_consistent_witness :
    (read_level devEcho [(1, AudioCh.each 0)] 0).1 ≠ Outcome.panicUnreachable
    ∧ read_level devEcho [(1, AudioCh.each 0)] 0 = (.ok (-1),
        [.status AUDIO_SUBUNIT_0_ADDR
          (.audioFeature ⟨1, .current, .each 0, .volume [-1]⟩)])
    ∧ read_lr_balance devEcho [(1, AudioCh.each 0)] 0 = (.ok (-1),
        [.status AUDIO_SUBUNIT_0_ADDR
          (.audioFeature ⟨1, .current, .each 0, .lrBalance (-1)⟩)]) := by
  have h := feature_reads_variant_consistent devEcho [(1, AudioCh.each 0)] 0 1
    (AudioCh.each 0) rfl
  exact ⟨(h.1 [-1] rfl).1, (h.1 [-1] rfl).2 (-1) [] rfl, h.2.1 (-1) rfl⟩

/-- C10: `read_level` and `read_mute` take the first element of the decoded
vector by direct indexing: on a response decoding to an empty vector they
panic (index out of bounds) instead of returning an error, and on a
non-empty vector they return its first element. -/
theorem read_level_mute_first_element
    (dev : BebobAvcDev) (ENTRIES : List (Nat × AudioCh)) (idx : Nat)
    (fb : Nat) (ch : AudioCh)
    (hidx : ENTRIES.get? idx = some (fb, ch)) :
    (dev.statusAudioFeature AUDIO_SUBUNIT_0_ADDR
        ⟨fb, .current, ch, .volume [-1]⟩ = .ok (.volume []) →
      (read_level dev ENTRIES idx).1 = Outcome.panicIndex)
    ∧ (∀ d rest, dev.statusAudioFeature AUDIO_SUBUNIT_0_ADDR
        ⟨fb, .current, ch, .volume [-1]⟩ = .ok (.volume (d :: rest)) →
      (read_level dev ENTRIES idx).1 = Outcome.ok d)
    ∧ (dev.statusAudioFeature AUDIO_SUBUNIT_0_ADDR
        ⟨fb, .current, ch, .mute [false]⟩ = .ok (.mute []) →
      (read_mute dev ENTRIES idx).1 = Outcome.panicIndex)
    ∧ (∀ b rest, dev.statusAudioFeature AUDIO_SUBUNIT_0_ADDR
        ⟨fb, .current, ch, .mute [false]⟩ = .ok (.mute (b :: rest)) →
      (read_mute dev ENTRIES idx).1 = Outcome.ok b) := by
  rw [List.get?_eq_getElem?] at hidx
  refine ⟨fun h => ?_, fun d rest h => ?_, fun h => ?_, fun b rest h => ?_⟩ <;>
    simp [read_level, read_mute, hidx, h]

/-- Witness: a device decoding to empty vectors makes `read_level` and
`read_mute` panic by indexing. -/
theorem read_level_mute_first_element_witness :
    (read_level devEmptyFeature [(1, AudioCh.each 0)] 0).1 = Outcome.panicIndex
    ∧ (read_mute devEmptyFeature [(1, AudioCh.each 0)] 0).1 = Outcome.panicIndex := by
  have h := read_level_mute_first_element devEmptyFeature [(1, AudioCh.each 0)] 0 1
    (AudioCh.each 0) rfl
  exact ⟨h.1 rfl, h.2.2.1 rfl⟩
